import Mathlib

/-!
Shallow embedding of the WiFi client monitor (src/device_manager.py,
src/wifi_scanner.py, src/config.py), together with theorems settling the
specification claims about it.

Modelling conventions:
* Python `dict` values are association lists `List (String × α)` manipulated
  only through the `PyDict` operations below, which mirror CPython semantics:
  assignment to an existing key updates the entry in place (insertion order
  kept), assignment to a fresh key appends, `del` removes the entry, and
  iteration follows list order.
* Timestamps (`time.time()` results) are modelled as `Int` seconds.  The
  source uses floats, but every claim under scrutiny only compares, subtracts
  and floor-divides timestamps, for which integer seconds are adequate; Python
  `//` and `%` are floored division, i.e. `Int.fdiv` / `Int.fmod`.
* Side effects are made explicit: wall-clock reads become parameters, writes
  to the persistence store are recorded as returned snapshots, and the
  `NameError` that `device_manager.py` raises when it evaluates the
  unimported name `platform` is recorded as a Boolean flag.
* Lean core's `String` primitives do not reduce in the kernel, so the string
  operations used by the source (`upper`, `replace`, `strip`, `split`,
  `startswith`, `endswith`) are re-implemented over `String.data`.
-/

/-- `s.upper()` for the ASCII strings handled here (MAC addresses). -/
def strToUpper (s : String) : String :=
  String.mk (s.data.map Char.toUpper)

/-- `s.replace(a, b)` where `a` and `b` are single characters (the source only
replaces `'-'` by `':'`). -/
def strReplaceChar (s : String) (a b : Char) : String :=
  String.mk (s.data.map (fun c => if c = a then b else c))

/-- `s.startswith(p)`. -/
def strStartsWith (s p : String) : Bool :=
  p.data.isPrefixOf s.data

/-- `s.endswith(p)`. -/
def strEndsWith (s p : String) : Bool :=
  p.data.isSuffixOf s.data

/-- Splits a character list at every character satisfying `p`, keeping empty
fragments, accumulator style. -/
def splitCharAux (p : Char → Bool) : List Char → List Char → List (List Char)
  | [], acc => [acc.reverse]
  | c :: cs, acc =>
      if p c then acc.reverse :: splitCharAux p cs [] else splitCharAux p cs (c :: acc)

/-- Splitting on a character predicate; `(strSplit s p).filter (· ≠ "")` is
Python's `s.split()` when `p` is `Char.isWhitespace`. -/
def strSplit (s : String) (p : Char → Bool) : List String :=
  (splitCharAux p s.data []).map String.mk

/-- `s.strip()`. -/
def strTrim (s : String) : String :=
  String.mk (((s.data.dropWhile Char.isWhitespace).reverse.dropWhile Char.isWhitespace).reverse)

namespace PyDict

variable {α : Type}

/-- `k in d` for a Python dict. -/
def contains (d : List (String × α)) (k : String) : Bool :=
  d.any (fun p => p.1 = k)

/-- `d[k]` as an option (`none` when the key is absent). -/
def find? (d : List (String × α)) (k : String) : Option α :=
  (d.find? (fun p => p.1 = k)).map (·.2)

/-- `d[k] = v`: updates the entry in place when `k` is present (CPython keeps
the original position), otherwise appends. -/
def insert (d : List (String × α)) (k : String) (v : α) : List (String × α) :=
  if contains d k then d.map (fun p => if p.1 = k then (k, v) else p) else d ++ [(k, v)]

/-- `del d[k]`. -/
def erase (d : List (String × α)) (k : String) : List (String × α) :=
  d.filter (fun p => p.1 ≠ k)

/-- `list(d.keys())`. -/
def keys (d : List (String × α)) : List String :=
  d.map (·.1)

theorem find?_cons (p : String × α) (d : List (String × α)) (k : String) :
    find? (p :: d) k = if p.1 = k then some p.2 else find? d k := by
  by_cases hp : p.1 = k
  · simp [find?, List.find?_cons_of_pos, hp]
  · simp [find?, List.find?_cons_of_neg, hp]

theorem contains_cons (p : String × α) (d : List (String × α)) (k : String) :
    contains (p :: d) k = (decide (p.1 = k) || contains d k) := by
  simp [contains]

theorem find?_eq_none_of_not_contains (d : List (String × α)) (k : String)
    (h : contains d k = false) : find? d k = none := by
  induction d with
  | nil => simp [find?]
  | cons p d ih =>
      rw [contains_cons] at h
      rcases Bool.or_eq_false_iff.mp h with ⟨h1, h2⟩
      rw [find?_cons, if_neg (by simpa using h1)]
      exact ih h2

theorem find?_mapUpdate_self (d : List (String × α)) (k : String) (v : α)
    (h : contains d k = true) :
    find? (d.map (fun p => if p.1 = k then (k, v) else p)) k = some v := by
  induction d with
  | nil => simp [contains] at h
  | cons p d ih =>
      by_cases hp : p.1 = k
      · simp [hp, find?_cons]
      · rw [contains_cons] at h
        simp only [hp] at h
        rw [List.map_cons, if_neg hp, find?_cons, if_neg hp]
        exact ih (by simpa using h)

theorem find?_mapUpdate_ne (d : List (String × α)) (k k' : String) (v : α)
    (h : k' ≠ k) :
    find? (d.map (fun p => if p.1 = k then (k, v) else p)) k' = find? d k' := by
  induction d with
  | nil => simp [find?]
  | cons p d ih =>
      by_cases hp : p.1 = k
      · rw [List.map_cons, if_pos hp, find?_cons, find?_cons, if_neg (Ne.symm h),
          if_neg (fun hc => h (hc.symm.trans hp))]
        exact ih
      · rw [List.map_cons, if_neg hp, find?_cons, find?_cons]
        by_cases hp' : p.1 = k'
        · simp [hp']
        · rw [if_neg hp', if_neg hp']
          exact ih

theorem keys_mapUpdate (d : List (String × α)) (k : String) (v : α) :
    keys (d.map (fun p => if p.1 = k then (k, v) else p)) = keys d := by
  induction d with
  | nil => rfl
  | cons p d ih =>
      simp only [keys, List.map_cons] at ih ⊢
      by_cases hp : p.1 = k
      · rw [if_pos hp, ih, hp]
      · rw [if_neg hp, ih]

theorem contains_eq_keys_any (d : List (String × α)) (k : String) :
    contains d k = (keys d).any (· = k) := by
  induction d with
  | nil => rfl
  | cons p d ih =>
      simp only [contains, keys, List.any_cons, List.map_cons] at ih ⊢
      rw [ih]

theorem contains_mapUpdate (d : List (String × α)) (k k' : String) (v : α) :
    contains (d.map (fun p => if p.1 = k then (k, v) else p)) k' = contains d k' := by
  rw [contains_eq_keys_any, contains_eq_keys_any, keys_mapUpdate]

theorem find?_insert_self (d : List (String × α)) (k : String) (v : α) :
    find? (insert d k v) k = some v := by
  unfold insert
  by_cases hc : contains d k
  · rw [if_pos hc]
    exact find?_mapUpdate_self d k v hc
  · rw [if_neg hc]
    induction d with
    | nil => simp [find?]
    | cons p d ih =>
        rw [contains_cons] at hc
        simp only [Bool.or_eq_true, not_or] at hc
        rw [List.cons_append, find?_cons, if_neg (by simpa using hc.1)]
        exact ih (by simpa using hc.2)

theorem find?_insert_ne (d : List (String × α)) (k k' : String) (v : α)
    (h : k' ≠ k) : find? (insert d k v) k' = find? d k' := by
  unfold insert
  by_cases hc : contains d k
  · rw [if_pos hc]
    exact find?_mapUpdate_ne d k k' v h
  · rw [if_neg hc]
    induction d with
    | nil =>
        rw [List.nil_append, find?_cons, if_neg (Ne.symm h)]
    | cons p d ih =>
        rw [contains_cons] at hc
        simp only [Bool.or_eq_true, not_or] at hc
        rw [List.cons_append, find?_cons, find?_cons]
        by_cases hp' : p.1 = k'
        · rw [if_pos hp', if_pos hp']
        · rw [if_neg hp', if_neg hp']
          exact ih (by simpa using hc.2)

theorem contains_insert (d : List (String × α)) (k k' : String) (v : α) :
    contains (insert d k v) k' = (decide (k' = k) || contains d k') := by
  unfold insert
  by_cases hc : contains d k
  · rw [if_pos hc, contains_mapUpdate]
    by_cases hk : k' = k
    · simp [hk, hc]
    · simp [hk]
  · rw [if_neg hc]
    simp [contains, List.any_append, eq_comm, Bool.or_comm]

theorem erase_insert_of_not_contains (d : List (String × α)) (k : String) (v : α)
    (h : contains d k = false) : erase (insert d k v) k = d := by
  rw [insert, if_neg (by simp [h]), erase, List.filter_append]
  have h1 : d.filter (fun p => decide (p.1 ≠ k)) = d := by
    apply List.filter_eq_self.mpr
    intro p hp
    simp only [contains, List.any_eq_false, decide_eq_true_eq] at h
    simpa using h p hp
  have h2 : ([(k, v)] : List (String × α)).filter (fun p => decide (p.1 ≠ k)) = [] := by
    simp
  rw [h1, h2, List.append_nil]

end PyDict

/-- A raw scan observation `{'ip': ..., 'mac': ..., 'hostname': ...}` as built
by the scan backends in src/wifi_scanner.py. -/
structure Observation where
  ip : String
  mac : String
  hostname : String
deriving DecidableEq, Repr

/-- The value stored in `DeviceManager.devices[mac]` by `update_device`
(src/device_manager.py lines 19-25): the observation fields plus the derived
fields computed at update time. -/
structure DeviceRecord where
  mac : String
  ip : String
  hostname : String
  first_seen : Int
  last_seen : Int
  connection_duration : Int
  is_blacklisted : Bool
deriving DecidableEq, Repr

/-- The value stored in `DeviceManager.blacklist[mac]` by `blacklist_device`
(src/device_manager.py lines 64-68).  `ip` is `device_ip`, which is `None`
when the MAC has no device record. -/
structure BlacklistEntry where
  timestamp : String
  reason : String
  ip : Option String
deriving DecidableEq, Repr

/-- The in-memory state of `DeviceManager` (src/device_manager.py lines 5-9):
`devices`, `blacklist` and `connection_times` dicts. -/
structure DeviceManager where
  devices : List (String × DeviceRecord)
  blacklist : List (String × BlacklistEntry)
  connection_times : List (String × Int)
deriving DecidableEq, Repr

/-- `DeviceManager.update_device` (src/device_manager.py lines 11-25).  The
`time.time()` read becomes the parameter `current_time`.  The `getD 0` default
is unreachable: `connection_times[mac]` is read only after the key was
ensured. -/
def DeviceManager.update_device (dm : DeviceManager) (device_info : Observation)
    (current_time : Int) : DeviceManager :=
  let mac := device_info.mac
  let ct :=
    if PyDict.contains dm.connection_times mac then dm.connection_times
    else PyDict.insert dm.connection_times mac current_time
  let fs := (PyDict.find? ct mac).getD 0
  { dm with
    connection_times := ct
    devices := PyDict.insert dm.devices mac
      { mac := mac
        ip := device_info.ip
        hostname := device_info.hostname
        first_seen := fs
        last_seen := current_time
        connection_duration := current_time - fs
        is_blacklisted := PyDict.contains dm.blacklist mac } }

/-- Python's `f"{n:02d}"`: zero-pad to width 2. -/
def pad2 (n : Int) : String :=
  let s := toString n
  if s.length < 2 then "0" ++ s else s

/-- `DeviceManager.format_duration` (src/device_manager.py lines 48-53);
Python `//` and `%` are floored, i.e. `Int.fdiv` / `Int.fmod`. -/
def format_duration (seconds : Int) : String :=
  let hours := seconds.fdiv 3600
  let minutes := (seconds.fmod 3600).fdiv 60
  let secs := seconds.fmod 60
  pad2 hours ++ ":" ++ pad2 minutes ++ ":" ++ pad2 secs

/-- One element of the list returned by `get_all_devices`
(src/device_manager.py lines 36-44).  The source renders `first_seen` through
`datetime.fromtimestamp(...).strftime(...)`; the raw timestamp is kept here,
calendar rendering being irrelevant to every claim. -/
structure FormattedDevice where
  mac : String
  ip : String
  hostname : String
  connection_duration : String
  is_blacklisted : Bool
  first_seen : Int
  status : String
deriving DecidableEq, Repr

/-- The loop body of `get_all_devices` for one `(mac, info)` entry
(src/device_manager.py lines 32-44). -/
def formatDevice (current_time : Int) (mac : String) (info : DeviceRecord) :
    FormattedDevice :=
  { mac := mac
    ip := info.ip
    hostname := info.hostname
    connection_duration := format_duration info.connection_duration
    is_blacklisted := info.is_blacklisted
    first_seen := info.first_seen
    status := if current_time - info.last_seen < 300 then "ACTIVE" else "OFFLINE" }

/-- `DeviceManager.get_all_devices` (src/device_manager.py lines 27-46); the
`time.time()` read becomes `current_time`. -/
def DeviceManager.get_all_devices (dm : DeviceManager) (current_time : Int) :
    List FormattedDevice :=
  dm.devices.map (fun p => formatDevice current_time p.1 p.2)

/-- Python truthiness of `device_ip : Option String`: `None` and `""` are
falsy, any other string is truthy. -/
def pyTruthy : Option String → Bool
  | none => false
  | some s => s ≠ ""

/-- Result of a `blacklist_device` call: the new in-memory state, the snapshot
passed to `config.save_blacklist` (the persisted content), and whether the
call raises `NameError`.  The flag models src/device_manager.py line 72:
`if device_ip and platform.system() == "Windows"` — the module imports only
`time`, `datetime` and `config` (lines 1-3), so the name `platform` is
unresolved, and evaluating it raises `NameError`; by short-circuiting this
happens exactly when `device_ip` is truthy, and only after `save_blacklist`
has already run (line 69). -/
structure BlacklistCallResult where
  state : DeviceManager
  saved : List (String × BlacklistEntry)
  raisesNameError : Bool
deriving DecidableEq, Repr

/-- `DeviceManager.blacklist_device` (src/device_manager.py lines 55-75).
The linear search over `devices.items()` comparing keys (lines 59-62) is the
dict lookup `PyDict.find?`; `datetime.now().isoformat()` becomes `now_iso`. -/
def DeviceManager.blacklist_device (dm : DeviceManager) (mac_address : String)
    (reason : String) (now_iso : String) : BlacklistCallResult :=
  let device_ip : Option String := (PyDict.find? dm.devices mac_address).map (·.ip)
  let bl := PyDict.insert dm.blacklist mac_address
    { timestamp := now_iso, reason := reason, ip := device_ip }
  { state := { dm with blacklist := bl }
    saved := bl
    raisesNameError := pyTruthy device_ip }

/-- Result of a `remove_from_blacklist` call; `saved` is `none` when the MAC
was not blacklisted (no save happens on that branch).  As in
`BlacklistCallResult`, `raisesNameError` models line 88 evaluating the
unresolved name `platform` when the stored `ip` is truthy, after the save of
line 85 already ran. -/
structure RemoveCallResult where
  state : DeviceManager
  saved : Option (List (String × BlacklistEntry))
  raisesNameError : Bool
deriving DecidableEq, Repr

/-- `DeviceManager.remove_from_blacklist` (src/device_manager.py lines
77-93). -/
def DeviceManager.remove_from_blacklist (dm : DeviceManager)
    (mac_address : String) : RemoveCallResult :=
  if PyDict.contains dm.blacklist mac_address then
    let device_ip : Option String := (PyDict.find? dm.blacklist mac_address).bind (·.ip)
    let bl := PyDict.erase dm.blacklist mac_address
    { state := { dm with blacklist := bl }
      saved := some bl
      raisesNameError := pyTruthy device_ip }
  else
    { state := dm, saved := none, raisesNameError := false }

namespace WiFiScanner

/-- `WiFiScanner._is_valid_device` (src/wifi_scanner.py lines 115-126),
verbatim: note the first list literally contains the dash-separated
`'FF-FF-FF-FF-FF-FF'` but the colon-separated `'00:00:00:00:00:00'`. -/
def is_valid_device (local_ip ip mac : String) : Bool :=
  if mac = "FF-FF-FF-FF-FF-FF" ∨ mac = "00:00:00:00:00:00" then false
  else if strEndsWith ip ".255" ∨ strStartsWith ip "224." ∨ strStartsWith ip "239." then false
  else if ip = local_ip then false
  else true

/-- `[0-9A-Fa-f]`. -/
def isHexDigitChar (c : Char) : Bool :=
  c.isDigit || ('a' ≤ c && c ≤ 'f') || ('A' ≤ c && c ≤ 'F')

/-- The regex `^([0-9A-Fa-f]{2}[:-]){5}([0-9A-Fa-f]{2})$` of
src/wifi_scanner.py line 99: 17 characters, hex pairs separated by `:` or
`-` (each separator independently). -/
def macRegexMatch (s : String) : Bool :=
  s.data.length = 17 && (List.range 17).all (fun i =>
    let c := s.data.getD i ' '
    if i % 3 = 2 then c = ':' || c = '-' else isHexDigitChar c)

/-- The loop body of `get_windows_arp_table` for one line of `arp -a` output
(src/wifi_scanner.py lines 86-108).  `rangeHead` is
`config.NETWORK_RANGE.split('.')[0]`; `hostnameOf` abstracts `get_hostname`
(an external DNS/socket effect); `none` models `continue`. -/
def processArpLine (rangeHead local_ip : String) (hostnameOf : String → String)
    (line : String) : Option Observation :=
  let line := strTrim line
  if line = "" || !(strStartsWith line rangeHead) then none
  else
    let parts := (strSplit line Char.isWhitespace).filter (· ≠ "")
    if parts.length < 2 then none
    else
      let ip := parts.getD 0 ""
      let mac := parts.getD 1 ""
      if !(macRegexMatch mac) then none
      else
        let mac := strToUpper (strReplaceChar mac '-' ':')
        if is_valid_device local_ip ip mac then
          some { ip := ip, mac := mac, hostname := hostnameOf ip }
        else none

/-- `WiFiScanner.get_windows_arp_table` (src/wifi_scanner.py lines 80-113)
applied to the captured stdout of `arp -a`. -/
def get_windows_arp_table (rangeHead local_ip : String)
    (hostnameOf : String → String) (stdout : String) : List Observation :=
  (strSplit stdout (· = '\n')).filterMap (processArpLine rangeHead local_ip hostnameOf)

/-- The non-Windows branch of `WiFiScanner.scan_arp` (src/wifi_scanner.py
lines 133-149): `responses` are the `(received.psrc, received.hwsrc)` pairs
from scapy's `srp`.  The hardware address is used verbatim — no case or
separator normalization is applied on this path. -/
def scan_arp_posix (local_ip : String) (hostnameOf : String → String)
    (responses : List (String × String)) : List Observation :=
  responses.filterMap (fun r =>
    if is_valid_device local_ip r.1 r.2 then
      some { ip := r.1, mac := r.2, hostname := hostnameOf r.1 }
    else none)

/-- The host loop of `WiFiScanner.scan_nmap` (src/wifi_scanner.py lines
188-205): `hosts` are `(host, addresses.get('mac', 'Unknown'))` pairs; hosts
whose MAC is absent (`'Unknown'`) are skipped, others are uppercased then
filtered. -/
def scan_nmap (local_ip : String) (hostnameOf : String → String)
    (hosts : List (String × String)) : List Observation :=
  hosts.filterMap (fun r =>
    if r.2 = "Unknown" then none
    else
      let mac := strToUpper r.2
      if is_valid_device local_ip r.1 mac then
        some { ip := r.1, mac := mac, hostname := hostnameOf r.1 }
      else none)

/-- `merged_devices[device['mac']] = device` for one observation. -/
def insertObs (m : List (String × Observation)) (d : Observation) :
    List (String × Observation) :=
  PyDict.insert m d.mac d

/-- The merge of `get_connected_devices` (src/wifi_scanner.py lines 263-266):
a dict comprehension over the ARP results followed by overwriting assignments
from the nmap results. -/
def mergeDevices (arp_devices nmap_devices : List Observation) :
    List (String × Observation) :=
  nmap_devices.foldl insertObs (arp_devices.foldl insertObs [])

/-- `WiFiScanner.get_connected_devices` (src/wifi_scanner.py lines 252-284)
with the three backend results as parameters: merge ARP then nmap, fall back
to the multi-range scan only when the merge is empty, push every entry whose
key is not `'Unknown'` into the device manager, and return
`get_all_devices`.  `scan_time` and `list_time` are the clock reads during
the update loop and inside `get_all_devices`. -/
def get_connected_devices (dm : DeviceManager)
    (arp_devices nmap_devices multi_range_devices : List Observation)
    (scan_time list_time : Int) : DeviceManager × List FormattedDevice :=
  let merged := mergeDevices arp_devices nmap_devices
  let merged := if merged.isEmpty then multi_range_devices.foldl insertObs merged else merged
  let dm := merged.foldl
    (fun dm p => if p.1 ≠ "Unknown" then dm.update_device p.2 scan_time else dm) dm
  (dm, dm.get_all_devices list_time)

end WiFiScanner

/-- State of the backing file `blacklist.json` as seen by
`Config.load_blacklist`: absent, present but unreadable/corrupt (`open` or
`json.load` raises), or present with a parsed mapping. -/
inductive StoreState where
  | missing
  | corrupt
  | valid (entries : List (String × BlacklistEntry))
deriving DecidableEq, Repr

/-- `Config.load_blacklist` (src/config.py lines 148-156): the `try` body
returns the parsed mapping when the file exists and parses; a missing file
falls through to `return {}`; any exception is caught, printed and also falls
through to `return {}`.  Every branch returns; nothing propagates. -/
def Config.load_blacklist : StoreState → List (String × BlacklistEntry)
  | .missing => []
  | .corrupt => []
  | .valid entries => entries

theorem PyDict.contains_of_find? {α : Type} (d : List (String × α)) (k : String) (v : α)
    (h : PyDict.find? d k = some v) : PyDict.contains d k = true := by
  by_cases hc : PyDict.contains d k
  · exact hc
  · rw [PyDict.find?_eq_none_of_not_contains d k (by simpa using hc)] at h
    cases h

/-- `get_all_devices` is a per-entry map, so looking its output up by `mac`
is looking the `devices` dict up by `mac` and formatting the result. -/
theorem get_all_devices_find? (dm : DeviceManager) (current_time : Int) (mac : String) :
    (dm.get_all_devices current_time).find? (fun r => r.mac = mac)
      = (PyDict.find? dm.devices mac).map (fun info => formatDevice current_time mac info) := by
  show ((dm.devices.map (fun p => formatDevice current_time p.1 p.2)).find?
      (fun r => r.mac = mac)) = _
  induction dm.devices with
  | nil => rfl
  | cons p l ih =>
      rw [List.map_cons, PyDict.find?_cons]
      by_cases hp : p.1 = mac
      · rw [if_pos hp]
        rw [List.find?_cons_of_pos _ (by simpa [formatDevice] using hp)]
        simp [hp]
      · rw [if_neg hp]
        rw [List.find?_cons_of_neg _ (by simpa [formatDevice] using hp)]
        exact ih

/-- C8.  `load_blacklist` returns the stored mapping when the backing file
exists and parses, and the empty mapping when the file is missing or
unreadable/corrupt; every branch of the source returns (the `except` clause
swallows the exception), so nothing propagates. -/
theorem C8_load_blacklist_total_and_empty_on_failure :
    Config.load_blacklist StoreState.missing = []
    ∧ Config.load_blacklist StoreState.corrupt = []
    ∧ ∀ entries, Config.load_blacklist (StoreState.valid entries) = entries :=
  ⟨rfl, rfl, fun _ => rfl⟩

/-- C4.  The status a `get_all_devices` call derives for a known record is
`"ACTIVE"` exactly when `current_time - last_seen < 300`, and at the boundary
`current_time - last_seen = 300` it is `"OFFLINE"`. -/
theorem C4_status_active_iff_within_300
    (dm : DeviceManager) (current_time : Int) (mac : String) (info : DeviceRecord)
    (h : PyDict.find? dm.devices mac = some info) :
    (((dm.get_all_devices current_time).find? (fun r => r.mac = mac)).map (·.status)
        = some (if current_time - info.last_seen < 300 then "ACTIVE" else "OFFLINE"))
    ∧ ((((dm.get_all_devices current_time).find? (fun r => r.mac = mac)).map (·.status)
        = some "ACTIVE") ↔ current_time - info.last_seen < 300)
    ∧ (current_time - info.last_seen = 300 →
        ((dm.get_all_devices current_time).find? (fun r => r.mac = mac)).map (·.status)
          = some "OFFLINE") := by
  have hfind := get_all_devices_find? dm current_time mac
  rw [h] at hfind
  rw [hfind]
  refine ⟨rfl, ?_, ?_⟩
  · show some (if current_time - info.last_seen < 300 then "ACTIVE" else "OFFLINE")
        = some "ACTIVE" ↔ current_time - info.last_seen < 300
    by_cases hlt : current_time - info.last_seen < 300
    · rw [if_pos hlt]
      exact ⟨fun _ => hlt, fun _ => rfl⟩
    · rw [if_neg hlt]
      constructor
      · intro hs
        exact absurd (Option.some.inj hs) (by decide)
      · intro hs
        exact absurd hs hlt
  · intro hb
    show some (if current_time - info.last_seen < 300 then "ACTIVE" else "OFFLINE")
        = some "OFFLINE"
    rw [if_neg (by rw [hb]; decide)]

/-- Fixed sample device record used by witnesses: last seen at 400 with the
blacklist flag captured as `false`. -/
def devW : DeviceRecord :=
  { mac := "AA:BB:CC:DD:EE:01", ip := "192.168.1.5", hostname := "laptop",
    first_seen := 100, last_seen := 400, connection_duration := 300,
    is_blacklisted := false }

/-- Fixed sample manager state used by witnesses: one known device, empty
blacklist. -/
def dmW : DeviceManager :=
  { devices := [("AA:BB:CC:DD:EE:01", devW)], blacklist := [],
    connection_times := [("AA:BB:CC:DD:EE:01", 100)] }

/-- Witness for C4 at the boundary: at `current_time = 700` the record last
seen at 400 is exactly 300 seconds old and is listed `"OFFLINE"`. -/
theorem C4_status_active_iff_within_300_witness :
    PyDict.find? dmW.devices "AA:BB:CC:DD:EE:01" = some devW
    ∧ ((dmW.get_all_devices 700).find? (fun r => r.mac = "AA:BB:CC:DD:EE:01")).map (·.status)
        = some "OFFLINE" :=
  ⟨by decide,
   (C4_status_active_iff_within_300 dmW 700 "AA:BB:CC:DD:EE:01" devW (by decide)).2.2
     (by decide)⟩

/-- C6.  Starting from any state whose blacklist does not contain `mac`,
`blacklist_device(mac, reason)` followed immediately by
`remove_from_blacklist(mac)` saves exactly the pre-add blacklist back to the
persistence store, and the in-memory blacklist is restored as well. -/
theorem C6_blacklist_roundtrip (dm : DeviceManager) (mac reason now_iso : String)
    (h : PyDict.contains dm.blacklist mac = false) :
    ((dm.blacklist_device mac reason now_iso).state.remove_from_blacklist mac).saved
        = some dm.blacklist
    ∧ ((dm.blacklist_device mac reason now_iso).state.remove_from_blacklist mac).state.blacklist
        = dm.blacklist := by
  simp only [DeviceManager.blacklist_device, DeviceManager.remove_from_blacklist]
  have hc : PyDict.contains
      (PyDict.insert dm.blacklist mac
        { timestamp := now_iso, reason := reason,
          ip := (PyDict.find? dm.devices mac).map (·.ip) }) mac = true := by
    rw [PyDict.contains_insert]
    simp
  rw [if_pos hc]
  rw [PyDict.erase_insert_of_not_contains dm.blacklist mac _ h]
  exact ⟨rfl, rfl⟩

/-- Witness for C6: adding then removing `"AA:BB:CC:DD:EE:01"` on the sample
state restores the empty persisted blacklist. -/
theorem C6_blacklist_roundtrip_witness :
    PyDict.contains dmW.blacklist "AA:BB:CC:DD:EE:01" = false
    ∧ ((dmW.blacklist_device "AA:BB:CC:DD:EE:01" "curfew" "2024-01-01T00:00:00").state.remove_from_blacklist
          "AA:BB:CC:DD:EE:01").saved = some dmW.blacklist :=
  ⟨by decide,
   (C6_blacklist_roundtrip dmW "AA:BB:CC:DD:EE:01" "curfew" "2024-01-01T00:00:00"
     (by decide)).1⟩

/-- Folding observation insertions does not touch keys that no observation in
the list carries. -/
theorem foldl_insertObs_find_of_absent (mac : String) :
    ∀ (l : List Observation) (m : List (String × Observation)),
      (∀ d ∈ l, d.mac ≠ mac) →
      PyDict.find? (l.foldl WiFiScanner.insertObs m) mac = PyDict.find? m mac := by
  intro l
  induction l with
  | nil => intro m _; rfl
  | cons c cs ih =>
      intro m h
      rw [List.foldl_cons,
        ih (WiFiScanner.insertObs m c) (fun d hd => h d (List.mem_cons_of_mem c hd))]
      exact PyDict.find?_insert_ne m c.mac mac c
        (fun hmm => h c (List.mem_cons_self c cs) hmm.symm)

/-- If `b` is the only observation in `l` carrying key `mac`, folding `l`
into any map leaves `b` at that key. -/
theorem foldl_insertObs_find_of_unique (mac : String) (b : Observation)
    (hbmac : b.mac = mac) :
    ∀ (l : List Observation) (m : List (String × Observation)),
      b ∈ l → (∀ c ∈ l, c.mac = mac → c = b) →
      PyDict.find? (l.foldl WiFiScanner.insertObs m) mac = some b := by
  intro l
  induction l with
  | nil => intro m hb _; cases hb
  | cons c cs ih =>
      intro m hb huniq
      rw [List.foldl_cons]
      by_cases hbc : b ∈ cs
      · exact ih (WiFiScanner.insertObs m c) hbc
          (fun d hd hdm => huniq d (List.mem_cons_of_mem c hd) hdm)
      · have hcb : c = b := by
          rcases List.mem_cons.mp hb with hcb | hbs
          · exact hcb.symm
          · exact absurd hbs hbc
        have habs : ∀ d ∈ cs, d.mac ≠ mac := by
          intro d hd hdm
          exact hbc ((huniq d (List.mem_cons_of_mem c hd) hdm) ▸ hd)
        rw [foldl_insertObs_find_of_absent mac cs _ habs, hcb]
        have hins : PyDict.find? (PyDict.insert m b.mac b) mac = some b := by
          rw [hbmac]
          exact PyDict.find?_insert_self m mac b
        exact hins

/-- C5.  When the ARP backend reports an observation for a MAC and the nmap
backend reports the (single) observation for the same MAC, the merged map of
`get_connected_devices` holds the nmap observation — its `ip` and `hostname`
win. -/
theorem C5_nmap_overwrites_arp (arp_devices nmap_devices : List Observation)
    (mac : String) (a b : Observation)
    (ha : a ∈ arp_devices) (hamac : a.mac = mac)
    (hb : b ∈ nmap_devices) (hbmac : b.mac = mac)
    (huniq : ∀ c ∈ nmap_devices, c.mac = mac → c = b) :
    PyDict.find? (WiFiScanner.mergeDevices arp_devices nmap_devices) mac = some b
    ∧ (PyDict.find? (WiFiScanner.mergeDevices arp_devices nmap_devices) mac).map (·.ip)
        = some b.ip
    ∧ (PyDict.find? (WiFiScanner.mergeDevices arp_devices nmap_devices) mac).map (·.hostname)
        = some b.hostname := by
  have hmain : PyDict.find? (WiFiScanner.mergeDevices arp_devices nmap_devices) mac
      = some b :=
    foldl_insertObs_find_of_unique mac b hbmac nmap_devices _ hb huniq
  exact ⟨hmain, by rw [hmain]; rfl, by rw [hmain]; rfl⟩

/-- Witness for C5 at the spec's §8 scenario: ARP reports hostname
`"laptop"`, nmap reports `"laptop-win"` for the same MAC; the merged record
carries `"laptop-win"`. -/
theorem C5_nmap_overwrites_arp_witness :
    (PyDict.find?
      (WiFiScanner.mergeDevices
        [{ ip := "192.168.1.5", mac := "AA:BB:CC:DD:EE:01", hostname := "laptop" }]
        [{ ip := "192.168.1.5", mac := "AA:BB:CC:DD:EE:01", hostname := "laptop-win" }])
      "AA:BB:CC:DD:EE:01").map (·.hostname) = some "laptop-win" :=
  (C5_nmap_overwrites_arp
    [{ ip := "192.168.1.5", mac := "AA:BB:CC:DD:EE:01", hostname := "laptop" }]
    [{ ip := "192.168.1.5", mac := "AA:BB:CC:DD:EE:01", hostname := "laptop-win" }]
    "AA:BB:CC:DD:EE:01"
    { ip := "192.168.1.5", mac := "AA:BB:CC:DD:EE:01", hostname := "laptop" }
    { ip := "192.168.1.5", mac := "AA:BB:CC:DD:EE:01", hostname := "laptop-win" }
    (by decide) (by decide) (by decide) (by decide) (by decide)).2.2

/-- The `arp -a` stdout line of C2's failing input: an entry whose hardware
address is the broadcast address, in the dash-separated lowercase form that
the Windows `arp` command prints. -/
def broadcastArpStdout : String :=
  "192.168.1.50          ff-ff-ff-ff-ff-ff     dynamic"

/-- C2 evaluation at the failing input.  `get_windows_arp_table` normalizes
the hardware address to `FF:FF:FF:FF:FF:FF` (line 102) *before* calling
`_is_valid_device` (line 103), whose reject list only holds the
dash-separated spelling `'FF-FF-FF-FF-FF-FF'` (line 117), so the broadcast
observation passes the filter; the same address reported by nmap as
`ff:ff:ff:ff:ff:ff` is uppercased (line 197) and passes too, and the merged
device map of `get_connected_devices` therefore contains the broadcast
hardware address — contradicting the claim that such a device never appears
in the merged list. -/
theorem C2_broadcast_mac_enters_merge :
    WiFiScanner.get_windows_arp_table "192" "10.0.0.1" (fun _ => "Unknown") broadcastArpStdout
      = [{ ip := "192.168.1.50", mac := "FF:FF:FF:FF:FF:FF", hostname := "Unknown" }]
    ∧ WiFiScanner.scan_nmap "10.0.0.1" (fun _ => "Unknown")
        [("192.168.1.50", "ff:ff:ff:ff:ff:ff")]
      = [{ ip := "192.168.1.50", mac := "FF:FF:FF:FF:FF:FF", hostname := "Unknown" }]
    ∧ PyDict.contains
        (WiFiScanner.mergeDevices
          (WiFiScanner.get_windows_arp_table "192" "10.0.0.1" (fun _ => "Unknown")
            broadcastArpStdout)
          (WiFiScanner.scan_nmap "10.0.0.1" (fun _ => "Unknown")
            [("192.168.1.50", "ff:ff:ff:ff:ff:ff")]))
        "FF:FF:FF:FF:FF:FF" = true := by
  refine ⟨by decide, by decide, by decide⟩

/-- The merged map of C9's failing input: scapy's ARP reply on the
non-Windows path reports the hardware address lowercase and `scan_arp` stores
it verbatim (src/wifi_scanner.py lines 141-147, no `upper()`), while
`scan_nmap` uppercases the same physical address (line 197). -/
def macCaseMergedSample : List (String × Observation) :=
  WiFiScanner.mergeDevices
    (WiFiScanner.scan_arp_posix "10.0.0.1" (fun _ => "Unknown")
      [("192.168.1.5", "aa:bb:cc:dd:ee:01")])
    (WiFiScanner.scan_nmap "10.0.0.1" (fun _ => "Unknown")
      [("192.168.1.5", "aa:bb:cc:dd:ee:01")])

/-- C9 evaluation at the failing input: one physical interface observed by
both backends yields two distinct record keys, `"aa:bb:cc:dd:ee:01"` from the
posix ARP backend and `"AA:BB:CC:DD:EE:01"` from nmap — the stored keys are
not normalized to a single case convention and the MAC fails to be a unique
identity key. -/
theorem C9_mac_key_not_normalized :
    PyDict.contains macCaseMergedSample "aa:bb:cc:dd:ee:01" = true
    ∧ PyDict.contains macCaseMergedSample "AA:BB:CC:DD:EE:01" = true
    ∧ (PyDict.keys macCaseMergedSample).length = 2
    ∧ strToUpper "aa:bb:cc:dd:ee:01" = "AA:BB:CC:DD:EE:01" := by
  refine ⟨by decide, by decide, by decide, by decide⟩

/-- C10.  `device_manager.py` imports only `time`, `datetime` and `config`,
so the name `platform` on lines 72 and 88 is unresolved.  (a) If the target
MAC has a device record with a non-empty `ip`, `blacklist_device` raises
`NameError`, yet the blacklist insertion was already saved (line 69 precedes
line 72).  (b) If the stored entry's `ip` is non-empty, `remove_from_blacklist`
raises `NameError`, yet the deletion was already saved (line 85 precedes
line 88).  The mutation persists even though the call errors. -/
theorem C10_nameerror_after_save :
    (∀ (dm : DeviceManager) (mac reason now_iso : String) (info : DeviceRecord),
      PyDict.find? dm.devices mac = some info → info.ip ≠ "" →
      (dm.blacklist_device mac reason now_iso).raisesNameError = true
      ∧ (dm.blacklist_device mac reason now_iso).saved
          = PyDict.insert dm.blacklist mac
              { timestamp := now_iso, reason := reason, ip := some info.ip }
      ∧ (dm.blacklist_device mac reason now_iso).state.blacklist
          = (dm.blacklist_device mac reason now_iso).saved)
    ∧ (∀ (dm : DeviceManager) (mac : String) (entry : BlacklistEntry) (s : String),
      PyDict.find? dm.blacklist mac = some entry → entry.ip = some s → s ≠ "" →
      (dm.remove_from_blacklist mac).raisesNameError = true
      ∧ (dm.remove_from_blacklist mac).saved = some (PyDict.erase dm.blacklist mac)
      ∧ (dm.remove_from_blacklist mac).state.blacklist = PyDict.erase dm.blacklist mac) := by
  constructor
  · intro dm mac reason now_iso info hdev hip
    simp only [DeviceManager.blacklist_device, hdev, Option.map_some]
    exact ⟨by simp [pyTruthy, hip], by trivial, by trivial⟩
  · intro dm mac entry s hbl hes hs
    have hc : PyDict.contains dm.blacklist mac = true :=
      PyDict.contains_of_find? dm.blacklist mac entry hbl
    simp only [DeviceManager.remove_from_blacklist, hbl, hc, if_pos, Option.some_bind, hes]
    exact ⟨by simp [pyTruthy, hs], by trivial, by trivial⟩

/-- Sample state for the C10 witness: the device's record carries a non-empty
`ip` and the blacklist holds an entry whose stored `ip` is non-empty. -/
def dmC10 : DeviceManager :=
  { devices := [("AA:BB:CC:DD:EE:01", devW)],
    blacklist := [("11:22:33:44:55:66",
      { timestamp := "2024-01-01T00:00:00", reason := "old", ip := some "192.168.1.9" })],
    connection_times := [("AA:BB:CC:DD:EE:01", 100)] }

/-- Witness for C10: blacklisting the device with ip `192.168.1.5` raises
(after saving), and removing the stored entry with ip `192.168.1.9` raises
(after saving). -/
theorem C10_nameerror_after_save_witness :
    (dmC10.blacklist_device "AA:BB:CC:DD:EE:01" "curfew" "t0").raisesNameError = true
    ∧ (dmC10.remove_from_blacklist "11:22:33:44:55:66").raisesNameError = true :=
  ⟨(C10_nameerror_after_save.1 dmC10 "AA:BB:CC:DD:EE:01" "curfew" "t0" devW
      (by decide) (by decide)).1,
   (C10_nameerror_after_save.2 dmC10 "11:22:33:44:55:66"
      { timestamp := "2024-01-01T00:00:00", reason := "old", ip := some "192.168.1.9" }
      "192.168.1.9" (by decide) (by decide) (by decide)).1⟩

/-- `update_device` stores under `obs.mac` exactly the record of lines 19-25:
`first_seen` read back from `connection_times`, `last_seen` the current time,
and `is_blacklisted` the blacklist membership at update time. -/
theorem update_device_devices_find (dm : DeviceManager) (obs : Observation) (t : Int) :
    PyDict.find? (dm.update_device obs t).devices obs.mac
      = some { mac := obs.mac, ip := obs.ip, hostname := obs.hostname,
               first_seen :=
                 (PyDict.find? (dm.update_device obs t).connection_times obs.mac).getD 0,
               last_seen := t,
               connection_duration :=
                 t - (PyDict.find? (dm.update_device obs t).connection_times obs.mac).getD 0,
               is_blacklisted := PyDict.contains dm.blacklist obs.mac } := by
  simp only [DeviceManager.update_device]
  exact PyDict.find?_insert_self _ _ _

/-- First call for a fresh MAC stamps `connection_times[mac]` with the
current time. -/
theorem update_device_ct_fresh (dm : DeviceManager) (obs : Observation) (t : Int)
    (h : PyDict.contains dm.connection_times obs.mac = false) :
    PyDict.find? (dm.update_device obs t).connection_times obs.mac = some t := by
  simp only [DeviceManager.update_device, h]
  simp only [Bool.false_eq_true, if_false]
  exact PyDict.find?_insert_self _ _ _

/-- No `update_device` call ever changes an existing `connection_times`
entry (for any MAC, matching the updated one or not). -/
theorem update_device_ct_preserved (dm : DeviceManager) (obs : Observation) (t : Int)
    (mac : String) (t0 : Int)
    (h : PyDict.find? dm.connection_times mac = some t0) :
    PyDict.find? (dm.update_device obs t).connection_times mac = some t0 := by
  by_cases hc : PyDict.contains dm.connection_times obs.mac = true
  · simp only [DeviceManager.update_device, hc, if_true]
    exact h
  · simp only [DeviceManager.update_device, hc]
    simp only [Bool.false_eq_true, if_false]  
    by_cases hm : mac = obs.mac
    · exfalso
      rw [hm] at h
      rw [PyDict.find?_eq_none_of_not_contains dm.connection_times obs.mac
        (by simpa using hc)] at h
      cases h
    · rw [PyDict.find?_insert_ne dm.connection_times obs.mac mac t hm]
      exact h

/-- `update_device` never removes a device key. -/
theorem update_device_preserves_contains (dm : DeviceManager) (obs : Observation)
    (t : Int) (mac : String) (h : PyDict.contains dm.devices mac = true) :
    PyDict.contains (dm.update_device obs t).devices mac = true := by
  simp only [DeviceManager.update_device]
  rw [PyDict.contains_insert]
  simp [h]

/-- Pushing any merged map into the manager (the update loop of
`get_connected_devices`) never removes a device key. -/
theorem scan_fold_preserves_contains (mac : String) (t : Int) :
    ∀ (l : List (String × Observation)) (dm : DeviceManager),
      PyDict.contains dm.devices mac = true →
      PyDict.contains
        ((l.foldl (fun dm p => if p.1 ≠ "Unknown" then dm.update_device p.2 t else dm)
          dm)).devices mac = true := by
  intro l
  induction l with
  | nil => intro dm h; exact h
  | cons p ps ih =>
      intro dm h
      rw [List.foldl_cons]
      by_cases hp : p.1 ≠ "Unknown"
      · exact ih _ (by rw [if_pos hp]; exact update_device_preserves_contains dm p.2 t mac h)
      · exact ih _ (by rw [if_neg hp]; exact h)

/-- C7.  Device records are never deleted: every MAC known before a scan
cycle is still known after it, whatever the backends returned; and a cycle
in which every backend returns zero observations leaves the manager state
untouched and returns exactly the previously known devices. -/
theorem C7_no_record_deletion :
    (∀ (dm : DeviceManager) (arp nmap multi : List Observation) (ts tl : Int) (mac : String),
      PyDict.contains dm.devices mac = true →
      PyDict.contains
        (WiFiScanner.get_connected_devices dm arp nmap multi ts tl).1.devices mac = true)
    ∧ ∀ (dm : DeviceManager) (ts tl : Int),
      WiFiScanner.get_connected_devices dm [] [] [] ts tl = (dm, dm.get_all_devices tl) := by
  constructor
  · intro dm arp nmap multi ts tl mac h
    simp only [WiFiScanner.get_connected_devices]
    exact scan_fold_preserves_contains mac ts _ dm h
  · intro dm ts tl
    rfl

/-- Witness for C7: the sample state keeps its known device across a cycle
where all three backends return nothing, and the cycle is the identity on
the state. -/
theorem C7_no_record_deletion_witness :
    PyDict.contains
      (WiFiScanner.get_connected_devices dmW [] [] [] 500 500).1.devices
      "AA:BB:CC:DD:EE:01" = true
    ∧ WiFiScanner.get_connected_devices dmW [] [] [] 500 500
        = (dmW, dmW.get_all_devices 500) :=
  ⟨C7_no_record_deletion.1 dmW [] [] [] 500 500 "AA:BB:CC:DD:EE:01" (by decide),
   C7_no_record_deletion.2 dmW 500 500⟩

/-- The scenario state for C1: one device observed at time 100, then
blacklisted, with no further `update_device` call. -/
def c1AfterBlacklist : DeviceManager :=
  ((({ devices := [], blacklist := [], connection_times := [] } :
      DeviceManager).update_device
    { ip := "192.168.1.5", mac := "AA:BB:CC:DD:EE:01", hostname := "laptop" }
    100).blacklist_device "AA:BB:CC:DD:EE:01" "curfew" "2024-01-01T00:00:00").state

/-- Counterexample to C1 as stated: after `blacklist_device` the blacklist
does contain the MAC, yet a subsequent `get_all_devices` (with no intervening
`update_device`) still lists `is_blacklisted = false` — the field is the
snapshot stored by the last `update_device`, not a value computed at call
time against the current blacklist. -/
theorem C1_counterexample :
    PyDict.contains c1AfterBlacklist.blacklist "AA:BB:CC:DD:EE:01" = true
    ∧ ((c1AfterBlacklist.get_all_devices 101).find?
        (fun r => r.mac = "AA:BB:CC:DD:EE:01")).map (·.is_blacklisted) = some false := by
  refine ⟨by decide, by decide⟩

/-- C1 as amended.  (a) For a known record, `get_all_devices` computes only
`status` at call time (from `current_time`); `ip`, `hostname`,
`connection_duration`, `is_blacklisted` and `first_seen` are the values the
record's most recent `update_device` stored.  (b) Consequently, after
`blacklist_device(mac)`, `list()` shows `is_blacklisted = true` for that MAC
once an `update_device` call for the MAC has intervened. -/
theorem C1_list_reads_stored_fields_status_at_call_time :
    (∀ (dm : DeviceManager) (current_time : Int) (mac : String) (info : DeviceRecord),
      PyDict.find? dm.devices mac = some info →
      (dm.get_all_devices current_time).find? (fun r => r.mac = mac)
        = some { mac := mac, ip := info.ip, hostname := info.hostname,
                 connection_duration := format_duration info.connection_duration,
                 is_blacklisted := info.is_blacklisted,
                 first_seen := info.first_seen,
                 status := if current_time - info.last_seen < 300
                           then "ACTIVE" else "OFFLINE" })
    ∧ (∀ (dm : DeviceManager) (mac reason now_iso : String) (obs : Observation)
        (t t' : Int), obs.mac = mac →
      ((((dm.blacklist_device mac reason now_iso).state.update_device obs t).get_all_devices
          t').find? (fun r => r.mac = mac)).map (·.is_blacklisted) = some true) := by
  constructor
  · intro dm current_time mac info h
    rw [get_all_devices_find? dm current_time mac, h]
    rfl
  · intro dm mac reason now_iso obs t t' hobs
    have hbl : PyDict.contains (dm.blacklist_device mac reason now_iso).state.blacklist mac
        = true := by
      show PyDict.contains (PyDict.insert dm.blacklist mac _) mac = true
      rw [PyDict.contains_insert]
      simp
    have hfind := update_device_devices_find (dm.blacklist_device mac reason now_iso).state
      obs t
    rw [hobs] at hfind
    rw [get_all_devices_find? _ t' mac, hfind]
    show some (PyDict.contains (dm.blacklist_device mac reason now_iso).state.blacklist mac)
        = some true
    rw [hbl]

/-- Witness for C1 (amended): on the scenario state, the stale listing shows
the stored `false`, and after an intervening `update_device` for the MAC the
listing shows `true`. -/
theorem C1_list_reads_stored_fields_status_at_call_time_witness :
    ((c1AfterBlacklist.get_all_devices 101).find?
        (fun r => r.mac = "AA:BB:CC:DD:EE:01"))
      = some { mac := "AA:BB:CC:DD:EE:01", ip := "192.168.1.5", hostname := "laptop",
               connection_duration := format_duration 0, is_blacklisted := false,
               first_seen := 100,
               status := if (101 : Int) - 100 < 300 then "ACTIVE" else "OFFLINE" }
    ∧ ((((dmW.blacklist_device "AA:BB:CC:DD:EE:01" "curfew" "t1").state.update_device
          { ip := "192.168.1.5", mac := "AA:BB:CC:DD:EE:01", hostname := "laptop" }
          500).get_all_devices 501).find?
        (fun r => r.mac = "AA:BB:CC:DD:EE:01")).map (·.is_blacklisted) = some true :=
  ⟨C1_list_reads_stored_fields_status_at_call_time.1 c1AfterBlacklist 101
      "AA:BB:CC:DD:EE:01"
      { mac := "AA:BB:CC:DD:EE:01", ip := "192.168.1.5", hostname := "laptop",
        first_seen := 100, last_seen := 100, connection_duration := 0,
        is_blacklisted := false }
      (by decide),
   C1_list_reads_stored_fields_status_at_call_time.2 dmW "AA:BB:CC:DD:EE:01" "curfew"
      "t1" { ip := "192.168.1.5", mac := "AA:BB:CC:DD:EE:01", hostname := "laptop" }
      500 501 (by decide)⟩

/-- A sequence of `update_device` calls, each with its observation and the
clock value `time.time()` returned during that call. -/
def applyUpdates (dm : DeviceManager) (steps : List (Observation × Int)) : DeviceManager :=
  steps.foldl (fun dm p => dm.update_device p.1 p.2) dm

/-- An existing `connection_times` entry survives any sequence of
`update_device` calls. -/
theorem applyUpdates_ct_preserved (mac : String) (t0 : Int) :
    ∀ (steps : List (Observation × Int)) (dm : DeviceManager),
      PyDict.find? dm.connection_times mac = some t0 →
      PyDict.find? (applyUpdates dm steps).connection_times mac = some t0 := by
  intro steps
  induction steps with
  | nil => intro dm h; exact h
  | cons p ps ih =>
      intro dm h
      exact ih _ (update_device_ct_preserved dm p.1 p.2 mac t0 h)

theorem take_succ_get {α : Type} (l : List α) (i : Nat) (h : i < l.length) :
    l.take (i+1) = l.take i ++ [l.get ⟨i, h⟩] := by
  have h1 := List.take_concat_get l i h
  rw [List.concat_eq_append] at h1
  rw [← h1]
  rfl

theorem getD_eq_get' {α : Type} (l : List α) (d : α) :
    ∀ (i : Nat) (hi : i < l.length), l.getD i d = l.get ⟨i, hi⟩ := by
  induction l with
  | nil => intro i hi; exact absurd hi (Nat.not_lt_zero i)
  | cons p ps ih =>
      intro i hi
      cases i with
      | zero => rfl
      | succ n => exact ih n (Nat.lt_of_succ_lt_succ hi)

theorem get_map_snd (rest : List (Observation × Int)) :
    ∀ (j : Nat) (hj : j < rest.length) (hj' : j < (rest.map (fun p => p.2)).length),
      (rest.map (fun p => p.2)).get ⟨j, hj'⟩ = (rest.get ⟨j, hj⟩).2 := by
  induction rest with
  | nil => intro j hj _; exact absurd hj (Nat.not_lt_zero j)
  | cons p ps ih =>
      intro j hj hj'
      cases j with
      | zero => rfl
      | succ n =>
          exact ih n (Nat.lt_of_succ_lt_succ hj) (Nat.lt_of_succ_lt_succ hj')

/-- After the `(k+1)`-st call of a sequence that starts with a fresh MAC and
keeps updating it, the stored record has `first_seen` equal to the first
call's time and `last_seen` equal to the `(k+1)`-st call's time. -/
theorem applyUpdates_prefix_record
    (dm : DeviceManager) (o : Observation) (t : Int) (rest : List (Observation × Int))
    (hfresh : PyDict.contains dm.connection_times o.mac = false)
    (hmac : ∀ p ∈ rest, p.1.mac = o.mac) :
    ∀ k, k ≤ rest.length →
      ∃ rec : DeviceRecord,
        PyDict.find? (applyUpdates dm (((o, t) :: rest).take (k+1))).devices o.mac
            = some rec
        ∧ rec.first_seen = t
        ∧ rec.last_seen = (t :: rest.map (fun p => p.2)).getD k 0 := by
  have hct1 : PyDict.find? (dm.update_device o t).connection_times o.mac = some t :=
    update_device_ct_fresh dm o t hfresh
  intro k hk
  cases k with
  | zero =>
      have hrec := update_device_devices_find dm o t
      rw [hct1] at hrec
      refine ⟨_, hrec, ?_, ?_⟩
      · rfl
      · rfl
  | succ j =>
      have hj : j < rest.length := Nat.lt_of_succ_le hk
      have htake : ((o, t) :: rest).take (j+1+1)
          = (o, t) :: (rest.take j ++ [rest.get ⟨j, hj⟩]) := by
        show (o, t) :: rest.take (j+1) = _
        rw [take_succ_get rest j hj]
      have hstate : applyUpdates dm (((o, t) :: rest).take (j+1+1))
          = (applyUpdates (dm.update_device o t) (rest.take j)).update_device
              (rest.get ⟨j, hj⟩).1 (rest.get ⟨j, hj⟩).2 := by
        rw [htake]
        show applyUpdates (dm.update_device o t) (rest.take j ++ [rest.get ⟨j, hj⟩]) = _
        rw [applyUpdates, List.foldl_append]
        rfl
      have hctj : PyDict.find?
          (applyUpdates (dm.update_device o t) (rest.take j)).connection_times o.mac
            = some t :=
        applyUpdates_ct_preserved o.mac t (rest.take j) (dm.update_device o t) hct1
      have hem : (rest.get ⟨j, hj⟩).1.mac = o.mac := hmac _ (List.get_mem rest j hj)
      have hrec := update_device_devices_find
        (applyUpdates (dm.update_device o t) (rest.take j))
        (rest.get ⟨j, hj⟩).1 (rest.get ⟨j, hj⟩).2
      rw [hem] at hrec
      have hcte : PyDict.find?
          (((applyUpdates (dm.update_device o t) (rest.take j))).update_device
            (rest.get ⟨j, hj⟩).1 (rest.get ⟨j, hj⟩).2).connection_times o.mac = some t :=
        update_device_ct_preserved _ _ _ o.mac t hctj
      rw [hcte] at hrec
      rw [hstate]
      refine ⟨_, hrec, ?_, ?_⟩
      · rfl
      · show (rest.get ⟨j, hj⟩).2 = (rest.map (fun p => p.2)).getD j 0
        rw [getD_eq_get' (rest.map (fun p => p.2)) 0 j (by simpa using hj)]
        rw [get_map_snd rest j hj (by simpa using hj)]

/-- C3.  Across any sequence of `update_device` calls for one MAC that is
fresh at the start (no `connection_times` entry yet): after every prefix of
the sequence the stored `first_seen` is the first call's time — it is
assigned by the first call and never changed — and, when the clock readings
are non-decreasing, the stored `last_seen` is monotonically non-decreasing
along the sequence. -/
theorem C3_first_seen_once_last_seen_monotone
    (dm : DeviceManager) (o : Observation) (t : Int) (rest : List (Observation × Int))
    (hfresh : PyDict.contains dm.connection_times o.mac = false)
    (hmac : ∀ p ∈ rest, p.1.mac = o.mac)
    (hchain : List.Chain' (· ≤ ·) (t :: rest.map (fun p => p.2))) :
    (∀ k, k ≤ rest.length →
      (PyDict.find? (applyUpdates dm (((o, t) :: rest).take (k+1))).devices o.mac).map
        (·.first_seen) = some t)
    ∧ (∀ j k, j ≤ k → k ≤ rest.length → ∀ a b,
      (PyDict.find? (applyUpdates dm (((o, t) :: rest).take (j+1))).devices o.mac).map
        (·.last_seen) = some a →
      (PyDict.find? (applyUpdates dm (((o, t) :: rest).take (k+1))).devices o.mac).map
        (·.last_seen) = some b →
      a ≤ b) := by
  have hrecs := applyUpdates_prefix_record dm o t rest hfresh hmac
  constructor
  · intro k hk
    obtain ⟨rec, hfind, hfs, -⟩ := hrecs k hk
    rw [hfind]
    show some rec.first_seen = some t
    rw [hfs]
  · intro j k hjk hk a b hja hkb
    obtain ⟨rj, hfj, -, hlj⟩ := hrecs j (le_trans hjk hk)
    obtain ⟨rk, hfk, -, hlk⟩ := hrecs k hk
    rw [hfj] at hja
    rw [hfk] at hkb
    have ha : a = (t :: rest.map (fun p => p.2)).getD j 0 := by
      rw [← hlj]
      exact (Option.some.inj hja).symm
    have hb : b = (t :: rest.map (fun p => p.2)).getD k 0 := by
      rw [← hlk]
      exact (Option.some.inj hkb).symm
    have hjL : j < (t :: rest.map (fun p => p.2)).length := by
      simp only [List.length_cons, List.length_map]
      omega
    have hkL : k < (t :: rest.map (fun p => p.2)).length := by
      simp only [List.length_cons, List.length_map]
      omega
    rw [ha, hb, getD_eq_get' _ 0 j hjL, getD_eq_get' _ 0 k hkL]
    rcases Nat.lt_or_ge j k with hlt | hge
    · exact List.pairwise_iff_get.mp (List.chain'_iff_pairwise.mp hchain)
        ⟨j, hjL⟩ ⟨k, hkL⟩ hlt
    · have hje : j = k := Nat.le_antisymm hjk hge
      subst hje
      exact le_refl _

/-- The empty manager state (a fresh `DeviceManager()` whose loaded blacklist
is empty). -/
def dmEmpty : DeviceManager :=
  { devices := [], blacklist := [], connection_times := [] }

/-- The observation used by the C3 witness. -/
def obsW1 : Observation :=
  { ip := "192.168.1.5", mac := "AA:BB:CC:DD:EE:01", hostname := "laptop" }

/-- Witness for C3: two updates for the same fresh MAC at times 10 then 20
leave `first_seen = 10`, and the successive `last_seen` values 10 and 20 are
non-decreasing. -/
theorem C3_first_seen_once_last_seen_monotone_witness :
    (PyDict.find? (applyUpdates dmEmpty (((obsW1, 10) :: [(obsW1, 20)]).take 2)).devices
        obsW1.mac).map (·.first_seen) = some 10
    ∧ (10 : Int) ≤ 20 := by
  have h := C3_first_seen_once_last_seen_monotone dmEmpty obsW1 10 [(obsW1, 20)]
    (by decide) (by decide)
    (List.chain'_cons.mpr ⟨by norm_num, List.chain'_singleton _⟩)
  exact ⟨h.1 1 (by decide),
    h.2 0 1 (by decide) (by decide) 10 20 (by decide) (by decide)⟩
